import Mathlib

/-!
Shallow embedding of the anticipy plotting module (src/anticipy/forecast_plot.py)
for verification of the specification claims.

The embedding models the forecast DataFrame as a list of rows together with
column-presence flags, and the two figure builders plus the top-level entry
point `plot_forecast` as pure functions producing descriptions of the figures
that the source constructs (traces, band fills, hidden cells), the files it
writes, and its outcome (return code, returned object, or uncaught exception).
Style-only parameters of the source (width, height, dpi, title, colors,
show_legend, auto_open, add_rangeslider) do not affect any modeled observable
and are omitted.
-/

namespace Anticipy

/-- One row of the forecast DataFrame.  Numeric values are modeled as
`Option Int`: `none` stands for a null/NaN entry.  `source` holds the value of
the source column when that column is present (it is ignored otherwise).
`qvals` gives the row values of the quantile columns, keyed by percentile
(the column named q5 is keyed 5, and so on). -/
structure Row where
  date : Int
  model : String
  y : Option Int
  is_actuals : Bool
  source : String
  qvals : List (Nat × Option Int)
deriving Repr, DecidableEq

/-- The forecast DataFrame: column-presence flags plus rows.  `datesValid`
models whether pd.to_datetime succeeds on the date column (the parse itself is
an external pandas operation).  `qCols` lists the percentiles p for which a
column named q followed by p exists. -/
structure DataFrame where
  hasDateCol : Bool
  datesValid : Bool
  hasSourceCol : Bool
  qCols : List Nat
  rows : List Row
deriving Repr, DecidableEq

/-- Value of the quantile column for percentile `p` in a row; the column value
is null when the row carries no entry for it. -/
def Row.qval (r : Row) (p : Nat) : Option Int :=
  match r.qvals.lookup p with
  | some v => v
  | none => none

/-- Helper for uniqueFirst: keep the elements not seen before, tracking the
set of already-seen values. -/
def uniqueFirstAux (seen : List String) : List String → List String
  | [] => []
  | x :: xs =>
    if seen.contains x then uniqueFirstAux seen xs
    else x :: uniqueFirstAux (x :: seen) xs

/-- First-seen-order list of distinct strings, as produced by
pandas Series.unique. -/
def uniqueFirst (l : List String) : List String :=
  uniqueFirstAux [] l

/-- Number of distinct source values over all rows
(pandas df_fcast.source.nunique()). -/
def DataFrame.sourceNunique (df : DataFrame) : Nat :=
  (uniqueFirst (df.rows.map Row.source)).length

/-- Distinct source values among actuals rows, in first-seen order
(df_fcast.loc[is_actuals, source].unique()). -/
def DataFrame.actualsSources (df : DataFrame) : List String :=
  uniqueFirst ((df.rows.filter Row.is_actuals).map Row.source)

/-- Drop rows whose model label is the auxiliary weight marker
(df_fcast.loc[df_fcast.model != weight]). -/
def DataFrame.filterWeight (df : DataFrame) : DataFrame :=
  { df with rows := df.rows.filter (fun r => !(r.model == "weight")) }

/-- Search for the least r at or above the start value whose square reaches
n, with explicit fuel so the recursion is structural. -/
def ceilSqrtFrom (n : Nat) : Nat → Nat → Nat
  | 0, r => r
  | fuel + 1, r => if n ≤ r * r then r else ceilSqrtFrom n fuel (r + 1)

/-- Ceiling of the square root, as computed by int(np.ceil(np.sqrt(n))):
the least r with n less than or equal to r squared. -/
def ceilSqrt (n : Nat) : Nat := ceilSqrtFrom n n 0

/-- Ceiling division, as computed by int(np.ceil(1.0 * a / b)) for b > 0. -/
def ceilDiv (a b : Nat) : Nat := (a + b - 1) / b

/-- Layout decided by the mode-inference step of plot_forecast: the subplots
flag, the list of sources to iterate over, and the grid shape. -/
structure Layout where
  subplots : Bool
  sources : List String
  nrows : Nat
  ncols : Nat
deriving Repr, DecidableEq

/-- Mode inference (plot_forecast lines 451-461).  Faceting is decided by the
presence of a source column and nunique over ALL rows being greater than 1;
the source list is then taken from actuals rows only.  When that list is empty
the source computes ncols as ceil(n / nrows) with nrows = 0, raising
ZeroDivisionError; this is modeled as `none`. -/
def inferLayout (df : DataFrame) : Option Layout :=
  if df.hasSourceCol && decide (1 < df.sourceNunique) then
    if ceilSqrt df.actualsSources.length == 0 then
      none
    else
      some ⟨true, df.actualsSources, ceilSqrt df.actualsSources.length,
        ceilDiv df.actualsSources.length (ceilSqrt df.actualsSources.length)⟩
  else
    some ⟨false, ["y"], 1, 1⟩

/-- Availability flags of the optional plotting backends, probed at import
time in the source module. -/
structure Env where
  matplotlib_imported : Bool
  plotly_imported : Bool
  ipython_imported : Bool
deriving Repr, DecidableEq

/-- Source filter used by both builders for one pane: all rows when not
faceting, otherwise the rows whose source equals the pane identifier. -/
def paneRows (df : DataFrame) (useSub : Bool) (src : String) : List Row :=
  df.rows.filter (fun r => !useSub || r.source == src)

/-- One fill_between call of the matplotlib builder: the percentile pair and
the (date, low, high) triples passed to it.  The where_fill mask restricts to
non-actuals rows whose low and high quantile values are both non-null. -/
structure Band where
  qLow : Nat
  qHi : Nat
  points : List (Int × Int × Int)
deriving Repr, DecidableEq

/-- Points passed to one matplotlib fill_between call, from the already
source-filtered rows of a pane. -/
def mplBandPoints (rows : List Row) (pLow pHi : Nat) : List (Int × Int × Int) :=
  rows.filterMap (fun r =>
    if r.is_actuals then none
    else
      match r.qval pLow, r.qval pHi with
      | some lo, some hi => some (r.date, lo, hi)
      | _, _ => none)

/-- One axes cell drawn by the matplotlib builder: its grid cell (0-indexed,
row-major), its source, the (date, y) points of the actuals and forecast line
plots, and its interval fills. -/
structure MplPane where
  src : String
  cell : Nat × Nat
  actualPoints : List (Int × Option Int)
  forecastPoints : List (Int × Option Int)
  bands : List Band
deriving Repr, DecidableEq

/-- All grid cells of an nrows x ncols axes grid, row-major. -/
def gridCells (nrows ncols : Nat) : List (Nat × Nat) :=
  (List.range nrows).flatMap (fun x => (List.range ncols).map (fun y => (x, y)))

/-- Cells hidden by the trailing while loops of the matplotlib builder: after
the pane loop the cursor sits at row n / ncols, column n % ncols, and every
cell from there on (row-major) is set invisible; these are exactly the cells
whose row-major index is at least n. -/
def mplHiddenCells (nrows ncols n : Nat) : List (Nat × Nat) :=
  (gridCells nrows ncols).filter (fun c => decide (n ≤ c.1 * ncols + c.2))

/-- The matplotlib figure: grid shape, drawn panes, and hidden cells. -/
structure MplFig where
  nrows : Nat
  ncols : Nat
  panes : List MplPane
  hiddenCells : List (Nat × Nat)
deriving Repr, DecidableEq

/-- The matplotlib builder (_matplotlib_forecast_create).  It asserts that
matplotlib is imported, filters out weight rows, then draws one pane per
source; interval fills use the fixed column pairs q5/q95 and q20/q80 and are
produced only when both columns exist; their points are restricted to
non-actuals rows with both values non-null. -/
def matplotlib_forecast_create (env : Env) (df0 : DataFrame) (useSub : Bool)
    (sources : List String) (nrows ncols : Nat) (include_interval : Bool) :
    Except String MplFig :=
  if !env.matplotlib_imported then
    .error "AssertionError: matplotlib required for PNG output"
  else
    let df := df0.filterWeight
    let panes := sources.enum.map (fun p =>
      let rows := paneRows df useSub p.2
      { src := p.2
        cell := (p.1 / ncols, p.1 % ncols)
        actualPoints := (rows.filter Row.is_actuals).map (fun r => (r.date, r.y))
        forecastPoints :=
          (rows.filter (fun r => !r.is_actuals)).map (fun r => (r.date, r.y))
        bands :=
          (if include_interval && df.qCols.contains 5 && df.qCols.contains 95 then
            [⟨5, 95, mplBandPoints rows 5 95⟩] else []) ++
          (if include_interval && df.qCols.contains 20 && df.qCols.contains 80 then
            [⟨20, 80, mplBandPoints rows 20 80⟩] else []) })
    .ok ⟨nrows, ncols, panes, mplHiddenCells nrows ncols sources.length⟩

/-- One interval band of the plotly builder: a pair of traces (low then high,
the high one filled to the previous trace).  The y values are taken from the
quantile columns for ALL non-actuals rows of the pane; null values are passed
through unfiltered. -/
structure PlotlyBandTraces where
  qLow : Nat
  qHi : Nat
  lowPoints : List (Int × Option Int)
  hiPoints : List (Int × Option Int)
deriving Repr, DecidableEq

/-- The pair of fill traces the plotly builder adds for percentile q, when
both columns q and 100-q exist; no per-point null filter is applied. -/
def plotlyBandFor (df : DataFrame) (rows : List Row) (q : Nat) :
    Option PlotlyBandTraces :=
  if df.qCols.contains q && df.qCols.contains (100 - q) then
    let fr := rows.filter (fun r => !r.is_actuals)
    some ⟨q, 100 - q,
      fr.map (fun r => (r.date, r.qval q)),
      fr.map (fun r => (r.date, r.qval (100 - q)))⟩
  else
    none

/-- One subplot cell of the plotly figure: its grid cell (1-indexed, as in
fig.add_trace(trace, x, y)), whether its actuals/forecast traces are
legend-visible (only the first source), the trace points, and the bands. -/
structure PlotlyPane where
  src : String
  cell : Nat × Nat
  showlegend : Bool
  actualPoints : List (Int × Option Int)
  forecastPoints : List (Int × Option Int)
  bands : List PlotlyBandTraces
deriving Repr, DecidableEq

/-- The plotly figure: grid shape, subplot titles (present only when
faceting), and panes.  `hiddenCells` records cells the builder hides; the
source contains no cell-hiding step, so it is always empty: every cell of the
nrows x ncols grid created by make_subplots keeps its axes. -/
structure PlotlyFig where
  nrows : Nat
  ncols : Nat
  titles : List String
  panes : List PlotlyPane
  hiddenCells : List (Nat × Nat)
deriving Repr, DecidableEq

/-- The plotly builder (_plotly_forecast_create).  It asserts that plotly is
imported, then draws one pane per source; no weight-row filter is applied;
interval bands use the percentile parameters pi_q1 and pi_q2, locating
columns q p and q (100-p), and include every non-actuals row of the pane. -/
def plotly_forecast_create (env : Env) (df : DataFrame) (use_subplots : Bool)
    (sources : List String) (nrows ncols : Nat) (include_interval : Bool)
    (pi_q1 pi_q2 : Nat) : Except String PlotlyFig :=
  if !env.plotly_imported then
    .error "AssertionError: plotly required for HTML output"
  else
    let titles := if use_subplots then sources else []
    let panes := sources.enum.map (fun p =>
      let rows := paneRows df use_subplots p.2
      { src := p.2
        cell := (1 + p.1 / ncols, 1 + p.1 % ncols)
        showlegend := p.1 == 0
        actualPoints := (rows.filter Row.is_actuals).map (fun r => (r.date, r.y))
        forecastPoints :=
          (rows.filter (fun r => !r.is_actuals)).map (fun r => (r.date, r.y))
        bands :=
          if include_interval then
            [pi_q1, pi_q2].filterMap (plotlyBandFor df rows)
          else [] })
    .ok ⟨nrows, ncols, titles, panes, []⟩

/-- Kinds of uncaught exceptions plot_forecast can raise. -/
inductive ExnKind where
  | assertNotDataFrame
  | assertMatplotlib
  | assertPlotly
  | zeroDiv
deriving Repr, DecidableEq

/-- Outcome of a plot_forecast call: an integer return code, the object
returned by the jupyter branch (py.offline.iplot result), or an uncaught
exception. -/
inductive Outcome where
  | ret (code : Nat)
  | retObj
  | exn (e : ExnKind)
deriving Repr, DecidableEq

/-- Observable effects of one plot_forecast call: its outcome, the files it
writes, the figures it constructs with each builder, and the messages passed
to logger.error. -/
structure PlotResult where
  outcome : Outcome
  filesWritten : List String
  mplFigs : List MplFig
  plotlyFigs : List PlotlyFig
  errorLogs : List String
deriving Repr, DecidableEq

/-- Python truthiness test `not path` on the optional path argument: true for
None and for the empty string. -/
def pathFalsy : Option String → Bool
  | none => true
  | some s => s == ""

/-- String value of a supplied path. -/
def pathStr : Option String → String
  | none => ""
  | some s => s

/-- The entry point plot_forecast, for a value that passed the isinstance
assertion.  Order of the source: date-column validation, date coercion,
missing-path check for the file-producing formats, mode inference (which can
raise ZeroDivisionError), then dispatch on the output format. -/
def plot_forecast (env : Env) (df_fcast : DataFrame) (output : String)
    (path : Option String) (include_interval : Bool) (pi_q1 pi_q2 : Nat) :
    PlotResult :=
  if !df_fcast.hasDateCol then
    ⟨.ret 1, [], [], [], ["DataFrame missing required date column"]⟩
  else if !df_fcast.datesValid then
    ⟨.ret 1, [], [], [], ["Failed to convert date column to datetime"]⟩
  else if pathFalsy path && (output == "html" || output == "png") then
    ⟨.ret 1, [], [], [], ["No export path provided."]⟩
  else
    match inferLayout df_fcast with
    | none => ⟨.exn .zeroDiv, [], [], [], []⟩
    | some L =>
      if output == "png" then
        if env.matplotlib_imported then
          match matplotlib_forecast_create env df_fcast L.subplots L.sources
              L.nrows L.ncols include_interval with
          | .error _ => ⟨.exn .assertMatplotlib, [], [], [], []⟩
          | .ok fig =>
            ⟨.ret 0, [pathStr path ++ ".png"], [fig], [], []⟩
        else
          ⟨.ret 1, [], [], [], ["matplotlib not installed; PNG export unavailable"]⟩
      else if output == "html" then
        if env.plotly_imported then
          match plotly_forecast_create env df_fcast L.subplots L.sources
              L.nrows L.ncols include_interval pi_q1 pi_q2 with
          | .error _ => ⟨.exn .assertPlotly, [], [], [], []⟩
          | .ok fig =>
            ⟨.ret 0, [pathStr path ++ ".html"], [], [fig], []⟩
        else
          ⟨.ret 1, [], [], [], ["plotly not installed; HTML export unavailable"]⟩
      else if output == "jupyter" then
        if env.plotly_imported && env.ipython_imported then
          match plotly_forecast_create env df_fcast L.subplots L.sources
              L.nrows L.ncols include_interval pi_q1 pi_q2 with
          | .error _ => ⟨.exn .assertPlotly, [], [], [], []⟩
          | .ok fig => ⟨.retObj, [], [], [fig], []⟩
        else
          ⟨.ret 1, [], [], [], ["plotly and ipython required for Jupyter output"]⟩
      else
        ⟨.ret 1, [], [], [],
          ["Invalid output format. Supported formats: png, html, jupyter."]⟩

/-- The argument passed for df_fcast: either an actual DataFrame or some
non-tabular value. -/
inductive PyInput where
  | table (df : DataFrame)
  | nonTable
deriving Repr, DecidableEq

/-- plot_forecast including its leading isinstance assertion: a non-tabular
input raises AssertionError. -/
def plot_forecast_checked (env : Env) (input : PyInput) (output : String)
    (path : Option String) (include_interval : Bool) (pi_q1 pi_q2 : Nat) :
    PlotResult :=
  match input with
  | .nonTable => ⟨.exn .assertNotDataFrame, [], [], [], []⟩
  | .table df => plot_forecast env df output path include_interval pi_q1 pi_q2

/-- Dates covered by the fill traces the plotly builder created for the band
whose lower percentile is p. -/
def PlotlyFig.fillDates (fig : PlotlyFig) (p : Nat) : List Int :=
  fig.panes.flatMap (fun pane =>
    (pane.bands.filter (fun b => b.qLow == p)).flatMap
      (fun b => b.hiPoints.map Prod.fst))

/-- Percentile pairs of all interval fills of a matplotlib figure. -/
def MplFig.bandPairs (fig : MplFig) : List (Nat × Nat) :=
  fig.panes.flatMap (fun pane => pane.bands.map (fun b => (b.qLow, b.qHi)))

/-- Percentile pairs of all interval bands of a plotly figure. -/
def PlotlyFig.pairsOfBands (fig : PlotlyFig) : List (Nat × Nat) :=
  fig.panes.flatMap (fun pane => pane.bands.map (fun b => (b.qLow, b.qHi)))

/-- The input state under which mode inference divides by zero: a source
column whose distinct values over all rows exceed one, while the actuals rows
contain no source value at all. -/
def zeroFaultCase (df : DataFrame) : Prop :=
  df.hasSourceCol = true ∧ 1 < df.sourceNunique ∧ df.actualsSources = []

section ConcreteInputs

/-- Environment with every plotting backend available. -/
def envAll : Env := ⟨true, true, true⟩

/-- Environment without matplotlib. -/
def envNoMpl : Env := ⟨false, true, true⟩

/-- Environment without plotly. -/
def envNoPlotly : Env := ⟨true, false, true⟩

/-- Table whose actuals rows carry a single source value while the table as a
whole carries two: actuals row with source a, forecast row with source b. -/
def df_c1 : DataFrame :=
  ⟨true, true, true, [],
    [⟨0, "actuals", some 1, true, "a", []⟩,
     ⟨0, "forecast", some 2, false, "b", []⟩]⟩

/-- Table with five distinct sources among actuals rows. -/
def df_facet5 : DataFrame :=
  ⟨true, true, true, [],
    [⟨0, "actuals", some 0, true, "s1", []⟩,
     ⟨0, "actuals", some 1, true, "s2", []⟩,
     ⟨0, "actuals", some 2, true, "s3", []⟩,
     ⟨0, "actuals", some 3, true, "s4", []⟩,
     ⟨0, "actuals", some 4, true, "s5", []⟩,
     ⟨1, "forecast", some 5, false, "s1", []⟩]⟩

/-- Single-series table with q5 and q95 columns whose only forecast row has a
null q5 value and a non-null q95 value. -/
def df_q : DataFrame :=
  ⟨true, true, false, [5, 95],
    [⟨0, "actuals", some 1, true, "x", []⟩,
     ⟨0, "forecast", some 2, false, "x", [(5, none), (95, some 3)]⟩]⟩

/-- Single-series table carrying q10, q90, q20, q80 columns, all non-null on
its forecast row. -/
def df_q4 : DataFrame :=
  ⟨true, true, false, [10, 90, 20, 80],
    [⟨0, "actuals", some 1, true, "x", []⟩,
     ⟨1, "forecast", some 2, false, "x",
        [(10, some 1), (90, some 4), (20, some 2), (80, some 3)]⟩]⟩

/-- Single-series table containing an auxiliary weight row (model weight)
flagged as actuals, at date 3 with value 7. -/
def df_w : DataFrame :=
  ⟨true, true, false, [],
    [⟨0, "actuals", some 1, true, "x", []⟩,
     ⟨3, "weight", some 7, true, "x", []⟩,
     ⟨1, "forecast", some 2, false, "x", []⟩]⟩

/-- Table with two distinct sources over all rows but no actuals rows at all:
the state on which mode inference divides by zero. -/
def df_zero : DataFrame :=
  ⟨true, true, true, [],
    [⟨0, "forecast", some 1, false, "a", []⟩,
     ⟨0, "forecast", some 2, false, "b", []⟩]⟩

/-- Ordinary single-series table used for witnesses. -/
def df_single : DataFrame :=
  ⟨true, true, false, [],
    [⟨0, "actuals", some 1, true, "x", []⟩,
     ⟨1, "forecast", some 2, false, "x", []⟩]⟩

end ConcreteInputs

section Counterexamples

/-- C1 counterexample: on df_c1 the actuals rows carry exactly one distinct
series identifier, yet the render is faceted (the figure carries subplot
titles, namely the single actuals source a), because the code keys faceting
on the distinct identifiers over ALL rows. -/
theorem c1_faceting_counts_all_rows_cex :
    df_c1.actualsSources.length = 1 ∧
    (plot_forecast envAll df_c1 "html" (some "out") false 5 20).plotlyFigs.map
        PlotlyFig.titles = [["a"]] := by decide

/-- C3 counterexample: the document renderer produces fill-trace content at
date 0 of df_q although the q5 value is null at every row of that date; the
claim requires that no fill be produced for such a point. -/
theorem c3_plotly_band_includes_null_cex :
    ((plot_forecast envAll df_q "html" (some "out") true 5 20).plotlyFigs.flatMap
        (fun f => f.fillDates 5)).contains 0 = true ∧
    df_q.rows.all (fun r => !(r.date == 0) || (r.qval 5).isNone) = true := by decide

/-- C4 counterexample: called with outer_quantile 10 on a table carrying q10,
q90, q20, q80 columns, the raster renderer draws only the fixed pair
(20, 80) and never locates q10/q90, while the document renderer locates
(10, 90) and (20, 80); the parameters therefore do not determine the columns
in both renderers. -/
theorem c4_mpl_ignores_quantile_params_cex :
    ((plot_forecast envAll df_q4 "png" (some "out") true 10 20).mplFigs.flatMap
        MplFig.bandPairs) = [(20, 80)] ∧
    ((plot_forecast envAll df_q4 "html" (some "out") true 10 20).plotlyFigs.flatMap
        PlotlyFig.pairsOfBands) = [(10, 90), (20, 80)] := by decide

/-- C5 code-bug evaluation: the weight row of df_w (date 3, value 7)
contributes a point to the document renderer actuals trace, while the raster
renderer excludes it; the weight-row exclusion holds in only one renderer. -/
theorem c5_weight_row_plotted_by_plotly :
    ((3 : Int), some (7 : Int)) ∈
      (plot_forecast envAll df_w "html" (some "out") false 5 20).plotlyFigs.flatMap
        (fun f => f.panes.flatMap PlotlyPane.actualPoints) ∧
    ((3 : Int), some (7 : Int)) ∉
      (plot_forecast envAll df_w "png" (some "out") false 5 20).mplFigs.flatMap
        (fun f => f.panes.flatMap MplPane.actualPoints) ∧
    df_w.rows.any (fun r => r.model == "weight" && r.is_actuals) = true := by decide

/-- C6 counterexample: a table with more than one distinct series identifier
but none among its actuals rows makes plot_forecast raise an uncaught
ZeroDivisionError instead of returning 1, and a non-tabular input raises an
uncaught AssertionError; no diagnostic is logged in either case. -/
theorem c6_uncaught_faults_cex :
    (plot_forecast_checked envAll (.table df_zero) "html" (some "out") false 5 20).outcome
        = .exn .zeroDiv ∧
    (plot_forecast_checked envAll (.table df_zero) "html" (some "out") false 5 20).errorLogs
        = [] ∧
    (plot_forecast_checked envAll .nonTable "html" (some "out") false 5 20).outcome
        = .exn .assertNotDataFrame := by decide

/-- C7 counterexample: with matplotlib unavailable, a raster-mode call on
df_zero raises an uncaught ZeroDivisionError rather than returning the skip
code 1. -/
theorem c7_unavailable_backend_cex :
    envNoMpl.matplotlib_imported = false ∧
    (plot_forecast envNoMpl df_zero "png" (some "out") false 5 20).outcome
        = .exn .zeroDiv := by decide

/-- C8 counterexample: an unrecognized output mode on df_zero raises an
uncaught ZeroDivisionError instead of returning 1 immediately, because the
unsupported-format check sits after mode inference. -/
theorem c8_invalid_format_not_immediate_cex :
    (plot_forecast envAll df_zero "docx" (some "out") false 5 20).outcome
        = .exn .zeroDiv := by decide

/-- C9 counterexample: the faceted document render of df_facet5 uses a 3 x 2
grid with 5 occupied panes but hides 0 cells, not the rows * cols - n = 1
cells the claim requires of both renderers. -/
theorem c9_plotly_hides_nothing_cex :
    (plot_forecast envAll df_facet5 "html" (some "out") false 5 20).plotlyFigs.map
        (fun f => (f.nrows, f.ncols, f.panes.length, f.hiddenCells.length))
      = [(3, 2, 5, 0)] := by decide

end Counterexamples

section GridShapeLemmas

/-- The fuel search returns a value whose square reaches n, provided enough
fuel is supplied. -/
theorem ceilSqrtFrom_le_sq (n : Nat) :
    ∀ fuel r, n ≤ (r + fuel) * (r + fuel) →
      n ≤ ceilSqrtFrom n fuel r * ceilSqrtFrom n fuel r := by
  intro fuel
  induction fuel with
  | zero => intro r h; simpa [ceilSqrtFrom] using h
  | succ k ih =>
    intro r h
    unfold ceilSqrtFrom
    split
    · assumption
    · refine ih (r + 1) ?_
      have e : r + 1 + k = r + (k + 1) := by omega
      rw [e]
      exact h

/-- The fuel search either returns its start value or stops at a value whose
predecessor squared is below n. -/
theorem ceilSqrtFrom_pred (n : Nat) :
    ∀ fuel r, ceilSqrtFrom n fuel r = r ∨
      ¬ n ≤ (ceilSqrtFrom n fuel r - 1) * (ceilSqrtFrom n fuel r - 1) := by
  intro fuel
  induction fuel with
  | zero => intro r; left; rfl
  | succ k ih =>
    intro r
    unfold ceilSqrtFrom
    split
    · left; rfl
    · next hnot =>
      rcases ih (r + 1) with h | h
      · right; rw [h]; simpa using hnot
      · right; exact h

/-- n is at most the square of ceilSqrt n. -/
theorem le_ceilSqrt_sq (n : Nat) : n ≤ ceilSqrt n * ceilSqrt n := by
  have h0 : n ≤ (0 + n) * (0 + n) := by
    simp only [Nat.zero_add]
    rcases Nat.eq_zero_or_pos n with h | h
    · simp [h]
    · exact Nat.le_mul_of_pos_left n h
  simpa [ceilSqrt] using ceilSqrtFrom_le_sq n n 0 h0

/-- ceilSqrt n is zero exactly for n = 0. -/
theorem ceilSqrt_eq_zero_iff (n : Nat) : ceilSqrt n = 0 ↔ n = 0 := by
  constructor
  · intro h
    have := le_ceilSqrt_sq n
    rw [h] at this
    omega
  · intro h; subst h; rfl

/-- For positive n, the predecessor of ceilSqrt n squared is below n. -/
theorem ceilSqrt_pred_sq_lt (n : Nat) (hn : 0 < n) :
    (ceilSqrt n - 1) * (ceilSqrt n - 1) < n := by
  rcases ceilSqrtFrom_pred n n 0 with h | h
  · exfalso
    have h0 : ceilSqrt n = 0 := h
    have := (ceilSqrt_eq_zero_iff n).mp h0
    omega
  · exact Nat.lt_of_not_le (by simpa [ceilSqrt] using h)

/-- Ceiling division reaches the numerator: n is at most r * ceilDiv n r. -/
theorem le_mul_ceilDiv (n r : Nat) (hr : 0 < r) : n ≤ r * ceilDiv n r := by
  show n ≤ r * ((n + r - 1) / r)
  have h1 := Nat.div_add_mod (n + r - 1) r
  have h2 := Nat.mod_lt (n + r - 1) hr
  generalize hE : r * ((n + r - 1) / r) = E at h1 ⊢
  omega

/-- With r at least the ceiling square root, the last grid row is partially
used: r * ceilDiv n r exceeds n by less than ceilDiv n r. -/
theorem mul_ceilDiv_sub_lt (n r : Nat) (hr : 0 < r)
    (hsq : (r - 1) * (r - 1) < n) : r * ceilDiv n r - n < ceilDiv n r := by
  obtain ⟨s, rfl⟩ : ∃ s, r = s + 1 := ⟨r - 1, by omega⟩
  simp only [Nat.add_sub_cancel] at hsq
  have hub : (s + 1) * ceilDiv n (s + 1) ≤ n + s := by
    show (s + 1) * ((n + (s + 1) - 1) / (s + 1)) ≤ n + s
    have h1 := Nat.div_add_mod (n + (s + 1) - 1) (s + 1)
    have h2 := Nat.mod_lt (n + (s + 1) - 1) (show 0 < s + 1 by omega)
    generalize hE : (s + 1) * ((n + (s + 1) - 1) / (s + 1)) = E at h1 ⊢
    omega
  have key : s * ceilDiv n (s + 1) < n := by
    have step1 : s * ((s + 1) * ceilDiv n (s + 1)) ≤ s * (n + s) :=
      Nat.mul_le_mul_left s hub
    have step2 : s * (n + s) < (s + 1) * n := by nlinarith
    have step3 : (s + 1) * (s * ceilDiv n (s + 1)) < (s + 1) * n := by
      calc (s + 1) * (s * ceilDiv n (s + 1))
          = s * ((s + 1) * ceilDiv n (s + 1)) := by ring
        _ ≤ s * (n + s) := step1
        _ < (s + 1) * n := step2
    exact Nat.lt_of_mul_lt_mul_left step3
  have hc : 0 < ceilDiv n (s + 1) := by
    show 0 < (n + (s + 1) - 1) / (s + 1)
    apply Nat.div_pos <;> omega
  rw [Nat.succ_mul]
  omega

/-- C2 — for a faceted layout over more than one series identifier, the grid
shape equals ceil(sqrt n) rows by ceil(n / rows) columns, the grid holds all
n panes, the unused cells are fewer than one row, and n = 5 gives a (3, 2)
grid. -/
theorem c2_grid_shape (df : DataFrame) (L : Layout)
    (hL : inferLayout df = some L) (hn : 1 < L.sources.length) :
    L.nrows = ceilSqrt L.sources.length ∧
    L.ncols = ceilDiv L.sources.length L.nrows ∧
    L.sources.length ≤ L.nrows * L.ncols ∧
    L.nrows * L.ncols - L.sources.length < L.ncols ∧
    (L.sources.length = 5 → L.nrows = 3 ∧ L.ncols = 2) := by
  unfold inferLayout at hL
  split at hL
  · split at hL
    · exact absurd hL (by simp)
    · next hz =>
      obtain rfl : L = ⟨true, df.actualsSources, ceilSqrt df.actualsSources.length,
          ceilDiv df.actualsSources.length (ceilSqrt df.actualsSources.length)⟩ := by
        injection hL with h; exact h.symm
      have hn' : 1 < df.actualsSources.length := hn
      have hnpos : 0 < df.actualsSources.length := by omega
      have hrpos : 0 < ceilSqrt df.actualsSources.length := by
        rcases Nat.eq_zero_or_pos (ceilSqrt df.actualsSources.length) with h | h
        · exact absurd ((ceilSqrt_eq_zero_iff _).mp h) (by omega)
        · exact h
      refine ⟨rfl, rfl,
        le_mul_ceilDiv df.actualsSources.length _ hrpos,
        mul_ceilDiv_sub_lt df.actualsSources.length _ hrpos
          (ceilSqrt_pred_sq_lt _ hnpos), ?_⟩
      intro h5
      have h5' : df.actualsSources.length = 5 := h5
      show ceilSqrt df.actualsSources.length = 3 ∧
        ceilDiv df.actualsSources.length (ceilSqrt df.actualsSources.length) = 2
      rw [h5']
      decide
  · obtain rfl : L = ⟨false, ["y"], 1, 1⟩ := by injection hL with h; exact h.symm
    simp at hn

/-- The layout the code derives for the five sources of df_facet5. -/
def L5 : Layout := ⟨true, ["s1", "s2", "s3", "s4", "s5"], 3, 2⟩

/-- Witness for c2_grid_shape: the five-source table df_facet5 satisfies the
hypotheses, with layout sources of length 5 and grid (3, 2). -/
theorem c2_grid_shape_witness :
    inferLayout df_facet5 = some L5 ∧ 1 < L5.sources.length ∧
    (L5.nrows = ceilSqrt L5.sources.length ∧
     L5.ncols = ceilDiv L5.sources.length L5.nrows ∧
     L5.sources.length ≤ L5.nrows * L5.ncols ∧
     L5.nrows * L5.ncols - L5.sources.length < L5.ncols ∧
     (L5.sources.length = 5 → L5.nrows = 3 ∧ L5.ncols = 2)) :=
  ⟨by decide, by decide, c2_grid_shape df_facet5 L5 (by decide) (by decide)⟩

end GridShapeLemmas

section ErrorContract

/-- Mode inference faults exactly on the zero-actuals-sources multi-source
state. -/
theorem inferLayout_eq_none_iff (df : DataFrame) :
    inferLayout df = none ↔ zeroFaultCase df := by
  unfold inferLayout zeroFaultCase
  constructor
  · intro h
    by_cases h1 : (df.hasSourceCol && decide (1 < df.sourceNunique)) = true
    · rw [if_pos h1] at h
      by_cases h2 : (ceilSqrt df.actualsSources.length == 0) = true
      · refine ⟨((Bool.and_eq_true _ _).mp h1).1,
          of_decide_eq_true ((Bool.and_eq_true _ _).mp h1).2, ?_⟩
        have hz : ceilSqrt df.actualsSources.length = 0 := by simpa using h2
        exact List.length_eq_zero.mp ((ceilSqrt_eq_zero_iff _).mp hz)
      · rw [if_neg h2] at h
        simp at h
    · rw [if_neg h1] at h
      simp at h
  · rintro ⟨h1, h2, h3⟩
    have hb : (df.hasSourceCol && decide (1 < df.sourceNunique)) = true := by
      simp [h1, h2]
    rw [if_pos hb]
    have hz : ceilSqrt df.actualsSources.length = 0 := by rw [h3]; rfl
    simp [hz]

/-- With matplotlib available the matplotlib builder never fails its
assertion. -/
theorem matplotlib_create_ne_error (env : Env) (df : DataFrame) (us : Bool)
    (ss : List String) (nr nc : Nat) (ii : Bool) (e : String)
    (henv : env.matplotlib_imported = true) :
    matplotlib_forecast_create env df us ss nr nc ii ≠ .error e := by
  unfold matplotlib_forecast_create
  rw [henv]
  simp

/-- With plotly available the plotly builder never fails its assertion. -/
theorem plotly_create_ne_error (env : Env) (df : DataFrame) (us : Bool)
    (ss : List String) (nr nc : Nat) (ii : Bool) (p1 p2 : Nat) (e : String)
    (henv : env.plotly_imported = true) :
    plotly_forecast_create env df us ss nr nc ii p1 p2 ≠ .error e := by
  unfold plotly_forecast_create
  rw [henv]
  simp

/-- Classification of all plot_forecast results when mode inference
succeeds: success with code 0, the jupyter return object, or failure code 1
with a logged diagnostic and no side effects. -/
theorem plot_forecast_outcome_cases (env : Env) (df : DataFrame)
    (output : String) (path : Option String) (ii : Bool) (p1 p2 : Nat)
    (L : Layout) (hL : inferLayout df = some L) :
    (plot_forecast env df output path ii p1 p2).outcome = .ret 0 ∨
    (plot_forecast env df output path ii p1 p2).outcome = .retObj ∨
    ((plot_forecast env df output path ii p1 p2).outcome = .ret 1 ∧
      (plot_forecast env df output path ii p1 p2).errorLogs ≠ [] ∧
      (plot_forecast env df output path ii p1 p2).filesWritten = [] ∧
      (plot_forecast env df output path ii p1 p2).mplFigs = [] ∧
      (plot_forecast env df output path ii p1 p2).plotlyFigs = []) := by
  unfold plot_forecast
  rw [hL]
  dsimp only
  split
  · simp
  split
  · simp
  split
  · simp
  split
  · split
    · split
      · next heq =>
        exact absurd heq
          (matplotlib_create_ne_error _ _ _ _ _ _ _ _ (by assumption))
      · simp
    · simp
  split
  · split
    · split
      · next heq =>
        exact absurd heq
          (plotly_create_ne_error _ _ _ _ _ _ _ _ _ _ (by assumption))
      · simp
    · simp
  split
  · split
    · split
      · next heq =>
        have hand : (env.plotly_imported && env.ipython_imported) = true := by
          assumption
        exact absurd heq
          (plotly_create_ne_error _ _ _ _ _ _ _ _ _ _
            ((Bool.and_eq_true _ _).mp hand).1)
      · simp
    · simp
  · simp

/-- C6 (amended) — when the input is a table outside the zero-actuals-sources
multi-source state, every error path of the entry point is converted into
return code 1 together with a logged diagnostic, and no exception escapes;
the excluded state raises an uncaught division error and a non-tabular input
an uncaught assertion error. -/
theorem c6_amended_error_contract (env : Env) (df : DataFrame)
    (output : String) (path : Option String) (ii : Bool) (p1 p2 : Nat)
    (h : ¬ zeroFaultCase df) :
    (∀ e, (plot_forecast_checked env (.table df) output path ii p1 p2).outcome
        ≠ .exn e) ∧
    ((plot_forecast_checked env (.table df) output path ii p1 p2).outcome
        = .ret 1 →
      (plot_forecast_checked env (.table df) output path ii p1 p2).errorLogs
        ≠ []) := by
  obtain ⟨L, hL⟩ : ∃ L, inferLayout df = some L := by
    cases hli : inferLayout df with
    | none => exact absurd ((inferLayout_eq_none_iff df).mp hli) h
    | some L => exact ⟨L, rfl⟩
  have hred : plot_forecast_checked env (.table df) output path ii p1 p2
      = plot_forecast env df output path ii p1 p2 := rfl
  rw [hred]
  rcases plot_forecast_outcome_cases env df output path ii p1 p2 L hL with
    h0 | h0 | ⟨h0, hlog, _, _, _⟩
  · rw [h0]
    exact ⟨fun e => by simp, fun hc => by simp at hc⟩
  · rw [h0]
    exact ⟨fun e => by simp, fun hc => by simp at hc⟩
  · rw [h0]
    exact ⟨fun e => by simp, fun _ => hlog⟩

/-- Witness for c6_amended_error_contract at the concrete table df_single:
its hypothesis holds and for instance no division error escapes. -/
theorem c6_amended_error_contract_witness :
    (plot_forecast_checked envAll (.table df_single) "png" (some "out")
        false 5 20).outcome ≠ .exn .zeroDiv :=
  (c6_amended_error_contract envAll df_single "png" (some "out") false 5 20
    (by unfold zeroFaultCase; decide)).1 .zeroDiv

/-- C7 (amended) — outside the zero-actuals-sources multi-source state, a
raster-mode call with matplotlib unavailable returns the skip code 1 with no
exception, no file written and no figure built, and likewise a document-mode
call with plotly unavailable. -/
theorem c7_amended_unavailable_backend (env : Env) (df : DataFrame)
    (path : Option String) (ii : Bool) (p1 p2 : Nat)
    (h : ¬ zeroFaultCase df) :
    (env.matplotlib_imported = false →
      (plot_forecast env df "png" path ii p1 p2).outcome = .ret 1 ∧
      (plot_forecast env df "png" path ii p1 p2).filesWritten = [] ∧
      (plot_forecast env df "png" path ii p1 p2).mplFigs = []) ∧
    (env.plotly_imported = false →
      (plot_forecast env df "html" path ii p1 p2).outcome = .ret 1 ∧
      (plot_forecast env df "html" path ii p1 p2).filesWritten = [] ∧
      (plot_forecast env df "html" path ii p1 p2).plotlyFigs = []) := by
  obtain ⟨L, hL⟩ : ∃ L, inferLayout df = some L := by
    cases hli : inferLayout df with
    | none => exact absurd ((inferLayout_eq_none_iff df).mp hli) h
    | some L => exact ⟨L, rfl⟩
  constructor
  · intro hm
    unfold plot_forecast
    rw [hL, hm]
    dsimp only
    split
    · simp
    split
    · simp
    split
    · simp
    split
    · simp
    · next hc => simp at hc
  · intro hp
    unfold plot_forecast
    rw [hL, hp]
    dsimp only
    split
    · simp
    split
    · simp
    split
    · simp
    split
    · next hc => simp at hc
    split
    · simp
    · next hc => simp at hc

/-- Witness for c7_amended_unavailable_backend: at df_single with matplotlib
unavailable, the raster call returns 1 with no file and no figure. -/
theorem c7_amended_unavailable_backend_witness :
    (plot_forecast envNoMpl df_single "png" (some "out") false 5 20).outcome
        = .ret 1 ∧
    (plot_forecast envNoMpl df_single "png" (some "out") false 5 20).filesWritten
        = [] ∧
    (plot_forecast envNoMpl df_single "png" (some "out") false 5 20).mplFigs
        = [] :=
  (c7_amended_unavailable_backend envNoMpl df_single (some "out") false 5 20
    (by unfold zeroFaultCase; decide)).1 rfl

/-- C8 (amended) — a file-producing output mode with a missing path returns 1
with no figure construction and no file write, universally; an unrecognized
output mode returns 1 the same way provided mode inference does not fault on
the zero-actuals-sources multi-source state. -/
theorem c8_missing_path_and_invalid_format (env : Env) (df : DataFrame)
    (output : String) (path : Option String) (ii : Bool) (p1 p2 : Nat) :
    ((output = "png" ∨ output = "html") → pathFalsy path = true →
      (plot_forecast env df output path ii p1 p2).outcome = .ret 1 ∧
      (plot_forecast env df output path ii p1 p2).filesWritten = [] ∧
      (plot_forecast env df output path ii p1 p2).mplFigs = [] ∧
      (plot_forecast env df output path ii p1 p2).plotlyFigs = []) ∧
    (¬ zeroFaultCase df → output ≠ "png" → output ≠ "html" →
      output ≠ "jupyter" →
      (plot_forecast env df output path ii p1 p2).outcome = .ret 1 ∧
      (plot_forecast env df output path ii p1 p2).filesWritten = [] ∧
      (plot_forecast env df output path ii p1 p2).mplFigs = [] ∧
      (plot_forecast env df output path ii p1 p2).plotlyFigs = []) := by
  constructor
  · intro ho hp
    unfold plot_forecast
    split
    · simp
    split
    · simp
    split
    · simp
    · next hc =>
      rcases ho with rfl | rfl <;> simp [hp] at hc
  · intro h hpng hhtml hjup
    obtain ⟨L, hL⟩ : ∃ L, inferLayout df = some L := by
      cases hli : inferLayout df with
      | none => exact absurd ((inferLayout_eq_none_iff df).mp hli) h
      | some L => exact ⟨L, rfl⟩
    unfold plot_forecast
    rw [hL]
    dsimp only
    split
    · simp
    split
    · simp
    split
    · simp
    split
    · next hc => simp at hc; exact absurd hc hpng
    split
    · next hc => simp at hc; exact absurd hc hhtml
    split
    · next hc => simp at hc; exact absurd hc hjup
    · simp

/-- Witness for c8_missing_path_and_invalid_format: a raster call without a
path returns 1 with no effects, and an unrecognized mode docx returns 1 with
no effects. -/
theorem c8_missing_path_and_invalid_format_witness :
    ((plot_forecast envAll df_single "png" none false 5 20).outcome = .ret 1 ∧
     (plot_forecast envAll df_single "png" none false 5 20).filesWritten = [] ∧
     (plot_forecast envAll df_single "png" none false 5 20).mplFigs = [] ∧
     (plot_forecast envAll df_single "png" none false 5 20).plotlyFigs = []) ∧
    ((plot_forecast envAll df_single "docx" (some "out") false 5 20).outcome
        = .ret 1 ∧
     (plot_forecast envAll df_single "docx" (some "out") false 5 20).filesWritten
        = [] ∧
     (plot_forecast envAll df_single "docx" (some "out") false 5 20).mplFigs
        = [] ∧
     (plot_forecast envAll df_single "docx" (some "out") false 5 20).plotlyFigs
        = []) :=
  ⟨(c8_missing_path_and_invalid_format envAll df_single "png" none
      false 5 20).1 (Or.inl rfl) rfl,
   (c8_missing_path_and_invalid_format envAll df_single "docx" (some "out")
      false 5 20).2 (by unfold zeroFaultCase; decide)
      (by decide) (by decide) (by decide)⟩

end ErrorContract

section DispatchSafety

/-- C10 — the backend-availability assertions inside the two figure builders
never fire on any call through the entry point, because plot_forecast checks
the corresponding availability flag before dispatching to either builder. -/
theorem c10_builder_asserts_never_fire (env : Env) (input : PyInput)
    (output : String) (path : Option String) (ii : Bool) (p1 p2 : Nat) :
    (plot_forecast_checked env input output path ii p1 p2).outcome
        ≠ .exn .assertMatplotlib ∧
    (plot_forecast_checked env input output path ii p1 p2).outcome
        ≠ .exn .assertPlotly := by
  cases input with
  | nonTable => exact ⟨by simp [plot_forecast_checked], by simp [plot_forecast_checked]⟩
  | table df =>
    show (plot_forecast env df output path ii p1 p2).outcome
        ≠ .exn .assertMatplotlib ∧
      (plot_forecast env df output path ii p1 p2).outcome ≠ .exn .assertPlotly
    cases hli : inferLayout df with
    | none =>
      unfold plot_forecast
      rw [hli]
      dsimp only
      split
      · simp
      split
      · simp
      split
      · simp
      · simp
    | some L =>
      rcases plot_forecast_outcome_cases env df output path ii p1 p2 L hli with
        h0 | h0 | ⟨h0, _, _, _, _⟩ <;> rw [h0] <;> exact ⟨by simp, by simp⟩

end DispatchSafety

section FacetingCondition

/-- C1 (amended) — the document-renderer figure built from the inferred
layout is faceted (carries subplot titles) exactly when the table has a
source column whose distinct values over ALL rows exceed one; otherwise it is
a 1 x 1 non-faceted figure over the implicit pseudo-source y. -/
theorem c1_amended_faceting_condition (env : Env) (df : DataFrame)
    (L : Layout) (ii : Bool) (p1 p2 : Nat) (fig : PlotlyFig)
    (hL : inferLayout df = some L)
    (hF : plotly_forecast_create env df L.subplots L.sources L.nrows L.ncols
        ii p1 p2 = .ok fig) :
    ((fig.titles ≠ []) ↔ (df.hasSourceCol = true ∧ 1 < df.sourceNunique)) ∧
    (fig.titles = [] → fig.nrows = 1 ∧ fig.ncols = 1 ∧
      fig.panes.map PlotlyPane.src = ["y"]) := by
  unfold plotly_forecast_create at hF
  split at hF
  · exact absurd hF (by simp)
  · injection hF with h
    subst h
    unfold inferLayout at hL
    split at hL
    · next hc =>
      split at hL
      · exact absurd hL (by simp)
      · next hz =>
        obtain rfl : L = ⟨true, df.actualsSources, ceilSqrt df.actualsSources.length,
            ceilDiv df.actualsSources.length (ceilSqrt df.actualsSources.length)⟩ := by
          injection hL with h2; exact h2.symm
        have hsrc : df.actualsSources ≠ [] := by
          intro hnil
          apply hz
          rw [hnil]
          rfl
        constructor
        · constructor
          · intro _
            exact ⟨((Bool.and_eq_true _ _).mp hc).1,
              of_decide_eq_true ((Bool.and_eq_true _ _).mp hc).2⟩
          · intro _
            simpa using hsrc
        · intro hti
          exact absurd (by simpa using hti) hsrc
    · next hc =>
      obtain rfl : L = ⟨false, ["y"], 1, 1⟩ := by
        injection hL with h2; exact h2.symm
      constructor
      · constructor
        · intro hti
          exact absurd rfl hti
        · rintro ⟨h1, h2⟩
          rw [h1] at hc
          simp [of_decide_eq_true, h2] at hc
      · intro _
        refine ⟨rfl, rfl, ?_⟩
        rfl

/-- Figure the document renderer builds for df_single with the inferred
single-series layout. -/
def figY : PlotlyFig :=
  (plotly_forecast_create envAll df_single false ["y"] 1 1
      false 5 20).toOption.getD ⟨0, 0, [], [], []⟩

/-- Witness for c1_amended_faceting_condition: the single-series table
df_single yields a non-faceted 1 x 1 figure over the pseudo-source y. -/
theorem c1_amended_faceting_condition_witness :
    inferLayout df_single = some ⟨false, ["y"], 1, 1⟩ ∧
    ((figY.titles ≠ []) ↔
      (df_single.hasSourceCol = true ∧ 1 < df_single.sourceNunique)) ∧
    (figY.titles = [] → figY.nrows = 1 ∧ figY.ncols = 1 ∧
      figY.panes.map PlotlyPane.src = ["y"]) :=
  ⟨by decide,
   c1_amended_faceting_condition envAll df_single ⟨false, ["y"], 1, 1⟩
     false 5 20 figY (by decide) rfl⟩

end FacetingCondition

section HiddenCellCount

/-- Counting the elements of range m at or above n. -/
theorem length_filter_le_range (m n : Nat) :
    ((List.range m).filter (fun i => decide (n ≤ i))).length = m - n := by
  induction m with
  | zero => simp
  | succ k ih =>
    rw [List.range_succ, List.filter_append, List.length_append, ih]
    by_cases h : n ≤ k
    · simp only [List.filter_cons, List.filter_nil, decide_eq_true h, if_pos]
      simp
      omega
    · simp only [List.filter_cons, List.filter_nil]
      rw [if_neg (by simpa using h)]
      simp
      omega

/-- Filtering after mapping counts the same elements as filtering the
composed predicate. -/
theorem length_filter_of_map {α β : Type} (f : α → β) (p : β → Bool) :
    ∀ l : List α,
      ((l.map f).filter p).length = (l.filter (fun a => p (f a))).length := by
  intro l
  induction l with
  | nil => rfl
  | cons a t ih =>
    by_cases h : p (f a) = true <;> simp [List.filter_cons, h, ih]

/-- The row-major linear indices of the grid cells are exactly the range of
the cell count. -/
theorem gridCells_map_lin (nr nc : Nat) :
    (gridCells nr nc).map (fun c => c.1 * nc + c.2) = List.range (nr * nc) := by
  induction nr with
  | zero => simp [gridCells]
  | succ k ih =>
    unfold gridCells
    rw [List.range_succ, List.flatMap_append, List.map_append]
    unfold gridCells at ih
    rw [ih, Nat.succ_mul, List.range_add]
    congr 1
    simp [List.map_map, Function.comp]

/-- The matplotlib hide loop hides exactly the cell count minus the occupied
count. -/
theorem mplHiddenCells_length (nr nc n : Nat) :
    (mplHiddenCells nr nc n).length = nr * nc - n := by
  unfold mplHiddenCells
  have e1 := length_filter_of_map (fun c : Nat × Nat => c.1 * nc + c.2)
    (fun i => decide (n ≤ i)) (gridCells nr nc)
  rw [gridCells_map_lin] at e1
  rw [← e1, length_filter_le_range]

/-- C9 (amended) — the raster renderer hides exactly rows * cols - n leftover
cells of its grid while drawing n panes; the document renderer draws n panes
but hides no cells at all, leaving leftover grid cells in place. -/
theorem c9_amended_hidden_cells (env : Env) (df : DataFrame) (us : Bool)
    (ss : List String) (nr nc : Nat) (ii : Bool) (p1 p2 : Nat)
    (figM : MplFig) (figP : PlotlyFig)
    (hM : matplotlib_forecast_create env df us ss nr nc ii = .ok figM)
    (hP : plotly_forecast_create env df us ss nr nc ii p1 p2 = .ok figP) :
    figM.hiddenCells.length = nr * nc - figM.panes.length ∧
    figM.panes.length = ss.length ∧
    figP.hiddenCells = [] ∧
    figP.panes.length = ss.length := by
  unfold matplotlib_forecast_create at hM
  split at hM
  · exact absurd hM (by simp)
  · injection hM with h
    subst h
    unfold plotly_forecast_create at hP
    split at hP
    · exact absurd hP (by simp)
    · injection hP with h2
      subst h2
      refine ⟨?_, by simp, rfl, by simp⟩
      show (mplHiddenCells nr nc ss.length).length
          = nr * nc - (ss.enum.map _).length
      rw [mplHiddenCells_length]
      simp

/-- Matplotlib figure for the five-source table df_facet5 on its inferred
3 x 2 grid. -/
def figM5 : MplFig :=
  (matplotlib_forecast_create envAll df_facet5 true
      ["s1", "s2", "s3", "s4", "s5"] 3 2 false).toOption.getD ⟨0, 0, [], []⟩

/-- Plotly figure for the five-source table df_facet5 on its inferred
3 x 2 grid. -/
def figP5 : PlotlyFig :=
  (plotly_forecast_create envAll df_facet5 true
      ["s1", "s2", "s3", "s4", "s5"] 3 2 false 5 20).toOption.getD
    ⟨0, 0, [], [], []⟩

/-- Witness for c9_amended_hidden_cells: on the 3 x 2 grid for five sources
the raster figure hides one cell and the document figure hides none. -/
theorem c9_amended_hidden_cells_witness :
    figM5.hiddenCells.length = 3 * 2 - figM5.panes.length ∧
    figM5.panes.length = 5 ∧
    figP5.hiddenCells = [] ∧
    figP5.panes.length = 5 :=
  c9_amended_hidden_cells envAll df_facet5 true ["s1", "s2", "s3", "s4", "s5"]
    3 2 false 5 20 figM5 figP5 rfl rfl

end HiddenCellCount

section BandPoints

/-- Membership in a matplotlib fill: a (date, low, high) triple is passed to
fill_between exactly when some pane row is a non-actuals row carrying those
two non-null quantile values at that date. -/
theorem mem_mplBandPoints (rows : List Row) (pl ph : Nat) (d lo hi : Int) :
    (d, lo, hi) ∈ mplBandPoints rows pl ph ↔
      ∃ r, r ∈ rows ∧ r.is_actuals = false ∧ r.qval pl = some lo ∧
        r.qval ph = some hi ∧ r.date = d := by
  unfold mplBandPoints
  rw [List.mem_filterMap]
  constructor
  · rintro ⟨r, hr, hf⟩
    by_cases ha : r.is_actuals = true
    · rw [if_pos ha] at hf
      cases hf
    · rw [if_neg ha] at hf
      cases hlo : r.qval pl with
      | none =>
        rw [hlo] at hf
        simp at hf
      | some lo2 =>
        cases hhi : r.qval ph with
        | none =>
          rw [hlo, hhi] at hf
          simp at hf
        | some hi2 =>
          rw [hlo, hhi] at hf
          simp only [Option.some.injEq, Prod.mk.injEq] at hf
          obtain ⟨h1, h2, h3⟩ := hf
          exact ⟨r, hr, by simpa using ha,
            by rw [hlo, h2], by rw [hhi, h3], h1⟩
  · rintro ⟨r, hr, ha, hlo, hhi, hd⟩
    refine ⟨r, hr, ?_⟩
    rw [ha, hlo, hhi, hd]
    rfl

/-- C3 (amended) — in the raster renderer a point enters a band fill exactly
when some matching non-actuals pane row has both quantile values non-null at
that date, while the document renderer passes every non-actuals pane row into
both fill traces of each band it draws, nulls included. -/
theorem c3_amended_band_nullness (env : Env) (df : DataFrame) (us : Bool)
    (ss : List String) (nr nc : Nat) (ii : Bool) (p1 p2 : Nat)
    (figM : MplFig) (figP : PlotlyFig)
    (hM : matplotlib_forecast_create env df us ss nr nc ii = .ok figM)
    (hP : plotly_forecast_create env df us ss nr nc ii p1 p2 = .ok figP) :
    (∀ pane ∈ figM.panes, ∀ b ∈ pane.bands, ∀ d lo hi : Int,
      ((d, lo, hi) ∈ b.points ↔
        ∃ r, r ∈ paneRows df.filterWeight us pane.src ∧
          r.is_actuals = false ∧ r.qval b.qLow = some lo ∧
          r.qval b.qHi = some hi ∧ r.date = d)) ∧
    (∀ pane ∈ figP.panes, ∀ b ∈ pane.bands, ∀ r,
      r ∈ paneRows df us pane.src → r.is_actuals = false →
        (r.date, r.qval b.qLow) ∈ b.lowPoints ∧
        (r.date, r.qval b.qHi) ∈ b.hiPoints) := by
  constructor
  · unfold matplotlib_forecast_create at hM
    split at hM
    · exact absurd hM (by simp)
    · injection hM with h
      subst h
      intro pane hpane b hb d lo hi
      dsimp only at hpane
      rw [List.mem_map] at hpane
      obtain ⟨p, hp, rfl⟩ := hpane
      dsimp only at hb ⊢
      rw [List.mem_append] at hb
      rcases hb with hb | hb
      · split at hb
        · rw [List.mem_singleton] at hb
          subst hb
          exact mem_mplBandPoints (paneRows df.filterWeight us p.2) 5 95 d lo hi
        · cases hb
      · split at hb
        · rw [List.mem_singleton] at hb
          subst hb
          exact mem_mplBandPoints (paneRows df.filterWeight us p.2) 20 80 d lo hi
        · cases hb
  · unfold plotly_forecast_create at hP
    split at hP
    · exact absurd hP (by simp)
    · injection hP with h
      subst h
      intro pane hpane b hb r hr ha
      dsimp only at hpane
      rw [List.mem_map] at hpane
      obtain ⟨p, hp, rfl⟩ := hpane
      dsimp only at hb ⊢
      split at hb
      · rw [List.mem_filterMap] at hb
        obtain ⟨q, hq, hband⟩ := hb
        unfold plotlyBandFor at hband
        split at hband
        · injection hband with h2
          subst h2
          constructor
          · rw [List.mem_map]
            exact ⟨r, List.mem_filter.mpr ⟨hr, by simp [ha]⟩, rfl⟩
          · rw [List.mem_map]
            exact ⟨r, List.mem_filter.mpr ⟨hr, by simp [ha]⟩, rfl⟩
        · cases hband
      · cases hb

/-- Matplotlib figure for df_q: the q5/q95 band exists but its only forecast
row has a null q5, so the fill is empty. -/
def figMq : MplFig :=
  (matplotlib_forecast_create envAll df_q false ["y"] 1 1
      true).toOption.getD ⟨0, 0, [], []⟩

/-- Plotly figure for df_q: the q5/q95 band traces carry the forecast row
with its null q5 value. -/
def figPq : PlotlyFig :=
  (plotly_forecast_create envAll df_q false ["y"] 1 1 true 5 20).toOption.getD
    ⟨0, 0, [], [], []⟩

/-- Witness for c3_amended_band_nullness at the concrete table df_q: its
matplotlib q5/q95 fill is empty because the forecast row has a null q5, and
the plotly band traces carry that row anyway. -/
theorem c3_amended_band_nullness_witness :
    matplotlib_forecast_create envAll df_q false ["y"] 1 1 true = .ok figMq ∧
    plotly_forecast_create envAll df_q false ["y"] 1 1 true 5 20 = .ok figPq ∧
    (∀ pane ∈ figPq.panes, ∀ b ∈ pane.bands, ∀ r,
      r ∈ paneRows df_q false pane.src → r.is_actuals = false →
        (r.date, r.qval b.qLow) ∈ b.lowPoints ∧
        (r.date, r.qval b.qHi) ∈ b.hiPoints) :=
  ⟨rfl, rfl,
   (c3_amended_band_nullness envAll df_q false ["y"] 1 1 true 5 20
      figMq figPq rfl rfl).2⟩

end BandPoints

section QuantileParams

/-- C4 (amended) — the raster renderer always draws its bands from the fixed
column pairs (5, 95) and (20, 80), whatever quantile parameters the call
carries; only the document renderer locates its band columns q p and
q (100 - p) from the parameters p1 and p2, and it draws a band for each
parameter whose two columns exist. -/
theorem c4_amended_quantile_params (env : Env) (df : DataFrame) (us : Bool)
    (ss : List String) (nr nc : Nat) (ii : Bool) (p1 p2 : Nat)
    (figM : MplFig) (figP : PlotlyFig)
    (hM : matplotlib_forecast_create env df us ss nr nc ii = .ok figM)
    (hP : plotly_forecast_create env df us ss nr nc ii p1 p2 = .ok figP) :
    (∀ pane ∈ figM.panes, ∀ b ∈ pane.bands,
      ((b.qLow, b.qHi) = (5, 95) ∨ (b.qLow, b.qHi) = (20, 80)) ∧
      df.qCols.contains b.qLow = true ∧ df.qCols.contains b.qHi = true) ∧
    (∀ pane ∈ figP.panes, ∀ b ∈ pane.bands,
      (b.qLow = p1 ∨ b.qLow = p2) ∧ b.qHi = 100 - b.qLow ∧
      df.qCols.contains b.qLow = true ∧ df.qCols.contains b.qHi = true) ∧
    (∀ pane ∈ figP.panes, ∀ q, (q = p1 ∨ q = p2) → ii = true →
      df.qCols.contains q = true → df.qCols.contains (100 - q) = true →
      ∃ b ∈ pane.bands, b.qLow = q ∧ b.qHi = 100 - q) := by
  refine ⟨?_, ?_, ?_⟩
  · unfold matplotlib_forecast_create at hM
    split at hM
    · exact absurd hM (by simp)
    · injection hM with h
      subst h
      intro pane hpane b hb
      dsimp only at hpane
      rw [List.mem_map] at hpane
      obtain ⟨p, hp, rfl⟩ := hpane
      dsimp only at hb
      rw [List.mem_append] at hb
      rcases hb with hb | hb
      · split at hb
        · next hc =>
          rw [List.mem_singleton] at hb
          subst hb
          refine ⟨Or.inl rfl, ?_, ?_⟩
          · exact ((Bool.and_eq_true _ _).mp
              ((Bool.and_eq_true _ _).mp hc).1).2
          · exact ((Bool.and_eq_true _ _).mp hc).2
        · cases hb
      · split at hb
        · next hc =>
          rw [List.mem_singleton] at hb
          subst hb
          refine ⟨Or.inr rfl, ?_, ?_⟩
          · exact ((Bool.and_eq_true _ _).mp
              ((Bool.and_eq_true _ _).mp hc).1).2
          · exact ((Bool.and_eq_true _ _).mp hc).2
        · cases hb
  · unfold plotly_forecast_create at hP
    split at hP
    · exact absurd hP (by simp)
    · injection hP with h
      subst h
      intro pane hpane b hb
      dsimp only at hpane
      rw [List.mem_map] at hpane
      obtain ⟨p, hp, rfl⟩ := hpane
      dsimp only at hb
      split at hb
      · rw [List.mem_filterMap] at hb
        obtain ⟨q, hq, hband⟩ := hb
        have hq2 : q = p1 ∨ q = p2 := by simpa using hq
        unfold plotlyBandFor at hband
        split at hband
        · next hc =>
          injection hband with h2
          subst h2
          exact ⟨by simpa using hq2, rfl,
            ((Bool.and_eq_true _ _).mp hc).1,
            ((Bool.and_eq_true _ _).mp hc).2⟩
        · cases hband
      · cases hb
  · unfold plotly_forecast_create at hP
    split at hP
    · exact absurd hP (by simp)
    · injection hP with h
      subst h
      intro pane hpane q hq hii hcq hcq2
      subst hii
      dsimp only at hpane
      rw [List.mem_map] at hpane
      obtain ⟨p, hp, rfl⟩ := hpane
      dsimp only
      split
      · refine ⟨⟨q, 100 - q,
          ((paneRows df us p.2).filter (fun r => !r.is_actuals)).map
            (fun r => (r.date, r.qval q)),
          ((paneRows df us p.2).filter (fun r => !r.is_actuals)).map
            (fun r => (r.date, r.qval (100 - q)))⟩, ?_, rfl, rfl⟩
        rw [List.mem_filterMap]
        refine ⟨q, by rcases hq with rfl | rfl <;> simp, ?_⟩
        unfold plotlyBandFor
        rw [if_pos (by rw [hcq, hcq2]; rfl)]
      · next hcontra => exact absurd rfl hcontra

/-- Matplotlib figure for df_q4 called with quantile parameters 10 and 20. -/
def figMq4 : MplFig :=
  (matplotlib_forecast_create envAll df_q4 false ["y"] 1 1
      true).toOption.getD ⟨0, 0, [], []⟩

/-- Plotly figure for df_q4 called with quantile parameters 10 and 20. -/
def figPq4 : PlotlyFig :=
  (plotly_forecast_create envAll df_q4 false ["y"] 1 1
      true 10 20).toOption.getD ⟨0, 0, [], [], []⟩

/-- Witness for c4_amended_quantile_params at the table df_q4 with quantile
parameters 10 and 20: the plotly bands are labeled by the parameters. -/
theorem c4_amended_quantile_params_witness :
    matplotlib_forecast_create envAll df_q4 false ["y"] 1 1 true = .ok figMq4 ∧
    plotly_forecast_create envAll df_q4 false ["y"] 1 1 true 10 20
        = .ok figPq4 ∧
    (∀ pane ∈ figPq4.panes, ∀ b ∈ pane.bands,
      (b.qLow = 10 ∨ b.qLow = 20) ∧ b.qHi = 100 - b.qLow ∧
      df_q4.qCols.contains b.qLow = true ∧
      df_q4.qCols.contains b.qHi = true) :=
  ⟨rfl, rfl,
   (c4_amended_quantile_params envAll df_q4 false ["y"] 1 1 true 10 20
      figMq4 figPq4 rfl rfl).2.1⟩

end QuantileParams

end Anticipy
